import Mathlib

/-!
Verification of the lot-doctor network-scanner pipeline (src-tauri/src/scanner).

The Rust sources are shallowly embedded: byte buffers become `List Nat`
(each element a byte value), machine integers become `Nat`/`Int` with
explicit `% 2 ^ w` or complement arithmetic where overflow matters, the
fallible orchestrator becomes a function into `Except ScanError`, and the
network environment (sweeper outcome, resolver maps, probe outcomes) is
passed explicitly as a `ScanEnv` record.  String handling models Rust
`to_lowercase`/`to_uppercase`/`trim_end` at the ASCII level, which covers
every string these functions are applied to in the scanner.
-/

namespace LotDoctor

/-- `ScanLevel` from scanner/mod.rs (lines 20-28). -/
inductive ScanLevel where
  | Level1
  | Level2
  | Level3
deriving DecidableEq

/-- `SecurityLevel` from scanner/mod.rs (lines 33-38). -/
inductive SecurityLevel where
  | Safe
  | Warning
  | Danger
  | Unknown
deriving DecidableEq

/-- `DeviceType` from scanner/mod.rs (lines 67-79). -/
inductive DeviceType where
  | Router
  | Camera
  | SmartSpeaker
  | SmartTv
  | SmartPlug
  | Printer
  | Nas
  | Computer
  | Smartphone
  | Unknown
deriving DecidableEq

/-- `IssueSeverity` from scanner/mod.rs (lines 104-110). -/
inductive IssueSeverity where
  | Info
  | Low
  | Medium
  | High
  | Critical
deriving DecidableEq

/-- `Port` from scanner/mod.rs (lines 83-89). -/
structure Port where
  number : Nat
  protocol : String
  service : Option String
  version : Option String
  is_secure : Bool
deriving DecidableEq

/-- `SecurityIssue` from scanner/mod.rs (lines 93-99). -/
structure SecurityIssue where
  id : String
  severity : IssueSeverity
  title : String
  description : String
  remediation : String
deriving DecidableEq

/-- `Device` from scanner/mod.rs (lines 48-61).  The `id` field (a fresh
UUID) and `last_seen` (wall-clock timestamp) are nondeterministic I/O
values irrelevant to every claim and are elided from the embedding. -/
structure Device where
  name : Option String
  device_type : DeviceType
  ip : String
  mac : String
  vendor : Option String
  hostname : Option String
  open_ports : List Port
  security_level : SecurityLevel
  security_score : Nat
  issues : List SecurityIssue
deriving DecidableEq

/-- `ScanError` from scanner/mod.rs (lines 122-137). -/
inductive ScanError where
  | NetworkError (msg : String)
  | PermissionDenied (msg : String)
  | Timeout
  | Cancelled
  | Internal (msg : String)
deriving DecidableEq

/-- Severity deduction table inside `calculate_security_score`
(scanner/mod.rs lines 302-308). -/
def severityPenalty : IssueSeverity → Int
  | .Critical => 40
  | .High => 25
  | .Medium => 15
  | .Low => 5
  | .Info => 0

/-- The running `i32` score of `calculate_security_score`
(scanner/mod.rs lines 299-316): start from 100, subtract the per-issue
penalty, subtract 5 per open port with `is_secure = false`. -/
def rawScore (device : Device) : Int :=
  device.open_ports.foldl
    (fun s p => if p.is_secure then s else s - 5)
    (device.issues.foldl
      (fun s issue => s - severityPenalty issue.severity) 100)

/-- `score.clamp(0, 100) as u8` (scanner/mod.rs line 318). -/
def clampScore (s : Int) : Nat := (max 0 (min 100 s)).toNat

/-- The `match device.security_score` bucketing of scanner/mod.rs
lines 319-323: `80..=100` Safe, `50..=79` Warning, otherwise Danger. -/
def levelOfScore (c : Nat) : SecurityLevel :=
  if 80 ≤ c ∧ c ≤ 100 then .Safe
  else if 50 ≤ c ∧ c ≤ 79 then .Warning
  else .Danger

/-- `calculate_security_score` from scanner/mod.rs (lines 298-324):
the clamped score is stored, then the level is derived from it. -/
def calculate_security_score (device : Device) : Device :=
  { device with
    security_score := clampScore (rawScore device)
    security_level := levelOfScore (clampScore (rawScore device)) }

/-- `COMMON_PORTS` from scanner/ports.rs (lines 6-23). -/
def COMMON_PORTS : List Nat :=
  [21, 22, 23, 25, 53, 80, 443, 554, 1883, 1900, 5000, 5353, 8080, 8443, 8883, 9000]

/-- `identify_service` from scanner/ports.rs (lines 72-91). -/
def identify_service (port : Nat) : String :=
  if port = 21 then "FTP"
  else if port = 22 then "SSH"
  else if port = 23 then "Telnet"
  else if port = 25 then "SMTP"
  else if port = 53 then "DNS"
  else if port = 80 then "HTTP"
  else if port = 443 then "HTTPS"
  else if port = 554 then "RTSP"
  else if port = 1883 then "MQTT"
  else if port = 1900 then "UPnP"
  else if port = 5000 then "UPnP"
  else if port = 5353 then "mDNS"
  else if port = 8080 then "HTTP"
  else if port = 8443 then "HTTPS"
  else if port = 8883 then "MQTT-TLS"
  else "Unknown"

/-- `is_secure_service` from scanner/ports.rs (lines 93-95). -/
def is_secure_service (port : Nat) : Bool :=
  port = 22 || port = 443 || port = 8443 || port = 8883

/-- Outcome of one TCP connect probe: `some b` means the probe ran and
reported open (`true`) or closed (`false`); `none` means the probe failed
(connect error, task panic).  `is_port_open` in ports.rs (lines 60-70)
maps a failed connect to `false`, and a panicked probe task is dropped by
the `if let Ok(Some(..))` collector (lines 51-55), so only `some true`
yields a port. -/
def probeOpen (probe : Nat → Option Bool) (port : Nat) : Bool :=
  match probe port with
  | some true => true
  | _ => false

/-- The port list collected by `scan_ports` for one IP
(scanner/ports.rs lines 30-55), parameterised by the probe outcomes. -/
def scan_ports_list (probe : Nat → Option Bool) : List Port :=
  COMMON_PORTS.filterMap fun port =>
    if probeOpen probe port then
      some { number := port
             protocol := "tcp"
             service := some (identify_service port)
             version := none
             is_secure := is_secure_service port }
    else none

/-- `scan_ports` from scanner/ports.rs (lines 26-58): the function's
return type is `Result`, but every path returns `Ok`. -/
def scan_ports (probe : Nat → Option Bool) : Except ScanError (List Port) :=
  Except.ok (scan_ports_list probe)

/-- ASCII lowercasing of one character.  Models Rust `to_lowercase` on the
scanner's inputs: every pattern the result is compared against is ASCII
or katakana, and katakana is fixed by Unicode lowercasing as well. -/
def lowerChar (c : Char) : Char :=
  if 'A' ≤ c ∧ c ≤ 'Z' then Char.ofNat (c.toNat + 32) else c

/-- ASCII uppercasing of one character (models Rust `to_uppercase` on MAC
strings, whose characters are ASCII hex digits and colons). -/
def upperChar (c : Char) : Char :=
  if 'a' ≤ c ∧ c ≤ 'z' then Char.ofNat (c.toNat - 32) else c

/-- ASCII lowercasing of a string. -/
def toLowerStr (s : String) : String := String.mk (s.toList.map lowerChar)

/-- Does the first list start with the second? -/
def listStarts : List Char → List Char → Bool
  | _, [] => true
  | [], _ :: _ => false
  | a :: as, b :: bs => a = b && listStarts as bs

/-- Does the first list contain the second as a contiguous run?
Models Rust `str::contains` with a literal pattern. -/
def listHas : List Char → List Char → Bool
  | [], pat => pat.isEmpty
  | a :: rest, pat => listStarts (a :: rest) pat || listHas rest pat

/-- Rust `s.contains(pat)`. -/
def strContains (s pat : String) : Bool := listHas s.toList pat.toList

/-- `OUI_DATABASE` from scanner/fingerprint.rs (lines 7-251). -/
def OUI_DATABASE : List (String × String) :=
  [("00:1A:2B", "Buffalo Inc."),
   ("00:26:AB", "Buffalo Inc."),
   ("AC:22:0B", "Buffalo Inc."),
   ("10:6F:3F", "Buffalo Inc."),
   ("18:C2:BF", "I-O DATA DEVICE, INC."),
   ("00:A0:B0", "I-O DATA DEVICE, INC."),
   ("40:8D:5C", "TP-LINK TECHNOLOGIES CO.,LTD."),
   ("50:C7:BF", "TP-LINK TECHNOLOGIES CO.,LTD."),
   ("FC:EC:DA", "TP-LINK TECHNOLOGIES CO.,LTD."),
   ("30:B5:C2", "TP-LINK TECHNOLOGIES CO.,LTD."),
   ("60:E3:27", "TP-LINK TECHNOLOGIES CO.,LTD."),
   ("B0:4E:26", "TP-LINK TECHNOLOGIES CO.,LTD."),
   ("A4:77:33", "Google, Inc."),
   ("D4:F5:47", "Google, Inc."),
   ("F4:F5:D8", "Google, Inc."),
   ("54:60:09", "Google, Inc."),
   ("30:FD:38", "Google, Inc."),
   ("48:D6:D5", "Google, Inc."),
   ("E4:F0:42", "Google, Inc."),
   ("6C:AD:F8", "Google, Inc."),
   ("44:65:0D", "Amazon Technologies Inc."),
   ("68:54:FD", "Amazon Technologies Inc."),
   ("A0:02:DC", "Amazon Technologies Inc."),
   ("FC:65:DE", "Amazon Technologies Inc."),
   ("40:B4:CD", "Amazon Technologies Inc."),
   ("74:C2:46", "Amazon Technologies Inc."),
   ("84:D6:D0", "Amazon Technologies Inc."),
   ("F0:F0:A4", "Amazon Technologies Inc."),
   ("00:17:88", "Philips Lighting BV"),
   ("BC:30:D9", "Arcadyan Technology Corporation"),
   ("00:90:CC", "Planex Communications Inc."),
   ("00:22:CF", "PLANEX COMMUNICATIONS INC."),
   ("00:1C:B3", "Apple, Inc."),
   ("28:CF:DA", "Apple, Inc."),
   ("3C:06:30", "Apple, Inc."),
   ("D0:03:4B", "Apple, Inc."),
   ("F0:18:98", "Apple, Inc."),
   ("A4:83:E7", "Apple, Inc."),
   ("DC:A4:CA", "Apple, Inc."),
   ("F0:D4:F6", "Apple, Inc."),
   ("A8:66:7F", "Apple, Inc."),
   ("14:7D:DA", "Apple, Inc."),
   ("88:66:A5", "Apple, Inc."),
   ("8C:85:90", "Apple, Inc."),
   ("AC:BC:32", "Apple, Inc."),
   ("C8:69:CD", "Apple, Inc."),
   ("E0:B5:2D", "Apple, Inc."),
   ("F4:5C:89", "Apple, Inc."),
   ("10:DD:B1", "Apple, Inc."),
   ("1C:91:48", "Apple, Inc."),
   ("34:C0:59", "Apple, Inc."),
   ("40:A6:D9", "Apple, Inc."),
   ("48:A1:95", "Apple, Inc."),
   ("54:4E:90", "Apple, Inc."),
   ("60:03:08", "Apple, Inc."),
   ("6C:96:CF", "Apple, Inc."),
   ("70:DE:E2", "Apple, Inc."),
   ("78:7B:8A", "Apple, Inc."),
   ("7C:D1:C3", "Apple, Inc."),
   ("84:FC:FE", "Apple, Inc."),
   ("90:27:E4", "Apple, Inc."),
   ("98:01:A7", "Apple, Inc."),
   ("A0:99:9B", "Apple, Inc."),
   ("A4:B1:97", "Apple, Inc."),
   ("B0:34:95", "Apple, Inc."),
   ("BC:52:B7", "Apple, Inc."),
   ("C0:A5:3E", "Apple, Inc."),
   ("00:1A:8A", "Samsung Electronics Co.,Ltd"),
   ("00:21:19", "Samsung Electronics Co.,Ltd"),
   ("8C:F5:A3", "Samsung Electronics Co.,Ltd"),
   ("AC:5F:3E", "Samsung Electronics Co.,Ltd"),
   ("C0:97:27", "Samsung Electronics Co.,Ltd"),
   ("5C:3A:45", "Samsung Electronics Co.,Ltd"),
   ("10:D5:42", "Samsung Electronics Co.,Ltd"),
   ("78:47:1D", "Samsung Electronics Co.,Ltd"),
   ("D0:22:BE", "Samsung Electronics Co.,Ltd"),
   ("E4:7C:F9", "Samsung Electronics Co.,Ltd"),
   ("34:14:5F", "Samsung Electronics Co.,Ltd"),
   ("90:18:7C", "Samsung Electronics Co.,Ltd"),
   ("A8:9F:BA", "Samsung Electronics Co.,Ltd"),
   ("B4:3A:28", "Samsung Electronics Co.,Ltd"),
   ("C4:73:1E", "Samsung Electronics Co.,Ltd"),
   ("FC:A8:9A", "Samsung Electronics Co.,Ltd"),
   ("14:49:E0", "Samsung Electronics Co.,Ltd"),
   ("1C:AF:05", "Samsung Electronics Co.,Ltd"),
   ("30:07:4D", "Samsung Electronics Co.,Ltd"),
   ("40:4E:36", "Samsung Electronics Co.,Ltd"),
   ("58:C3:8B", "Samsung Electronics Co.,Ltd"),
   ("6C:C7:EC", "Samsung Electronics Co.,Ltd"),
   ("84:25:DB", "Samsung Electronics Co.,Ltd"),
   ("98:83:89", "Samsung Electronics Co.,Ltd"),
   ("BC:14:EF", "Samsung Electronics Co.,Ltd"),
   ("CC:07:AB", "Samsung Electronics Co.,Ltd"),
   ("E8:E5:D6", "Samsung Electronics Co.,Ltd"),
   ("F8:04:2E", "Samsung Electronics Co.,Ltd"),
   ("28:6C:07", "Xiaomi Communications Co Ltd"),
   ("64:CC:2E", "Xiaomi Communications Co Ltd"),
   ("7C:1D:D9", "Xiaomi Communications Co Ltd"),
   ("0C:1D:AF", "Xiaomi Communications Co Ltd"),
   ("34:80:B3", "Xiaomi Communications Co Ltd"),
   ("50:64:2B", "Xiaomi Communications Co Ltd"),
   ("78:11:DC", "Xiaomi Communications Co Ltd"),
   ("8C:DE:F9", "Xiaomi Communications Co Ltd"),
   ("A4:77:58", "Xiaomi Communications Co Ltd"),
   ("B0:E2:35", "Xiaomi Communications Co Ltd"),
   ("C4:0B:CB", "Xiaomi Communications Co Ltd"),
   ("DC:D8:7D", "Xiaomi Communications Co Ltd"),
   ("F0:B4:29", "Xiaomi Communications Co Ltd"),
   ("18:59:36", "Xiaomi Communications Co Ltd"),
   ("58:44:98", "Xiaomi Communications Co Ltd"),
   ("00:E0:FC", "Huawei Technologies Co.,Ltd"),
   ("04:F9:38", "Huawei Technologies Co.,Ltd"),
   ("20:F3:A3", "Huawei Technologies Co.,Ltd"),
   ("48:46:FB", "Huawei Technologies Co.,Ltd"),
   ("70:72:3C", "Huawei Technologies Co.,Ltd"),
   ("88:28:B3", "Huawei Technologies Co.,Ltd"),
   ("AC:61:75", "Huawei Technologies Co.,Ltd"),
   ("C8:D1:5E", "Huawei Technologies Co.,Ltd"),
   ("E0:24:7F", "Huawei Technologies Co.,Ltd"),
   ("EC:CB:30", "Huawei Technologies Co.,Ltd"),
   ("14:30:04", "Huawei Technologies Co.,Ltd"),
   ("24:44:27", "Huawei Technologies Co.,Ltd"),
   ("3C:47:11", "Huawei Technologies Co.,Ltd"),
   ("54:A5:1B", "Huawei Technologies Co.,Ltd"),
   ("78:F5:57", "Huawei Technologies Co.,Ltd"),
   ("00:1F:E4", "Sony Corporation"),
   ("00:13:A9", "Sony Corporation"),
   ("00:24:BE", "Sony Corporation"),
   ("04:5D:4B", "Sony Corporation"),
   ("28:3F:69", "Sony Corporation"),
   ("40:B8:37", "Sony Corporation"),
   ("78:84:3C", "Sony Corporation"),
   ("AC:9B:0A", "Sony Corporation"),
   ("B4:52:7E", "Sony Corporation"),
   ("FC:0F:E6", "Sony Corporation"),
   ("3C:77:E6", "OPPO Digital, Inc."),
   ("54:A0:50", "OPPO Digital, Inc."),
   ("A4:3D:78", "OPPO Digital, Inc."),
   ("CC:2D:83", "OPPO Digital, Inc."),
   ("E8:BB:A8", "OPPO Digital, Inc."),
   ("74:A5:28", "OPPO Digital, Inc."),
   ("90:6C:AC", "OPPO Digital, Inc."),
   ("18:D7:17", "OPPO Digital, Inc."),
   ("00:1A:92", "ASUSTek COMPUTER INC."),
   ("1C:87:2C", "ASUSTek COMPUTER INC."),
   ("2C:56:DC", "ASUSTek COMPUTER INC."),
   ("54:04:A6", "ASUSTek COMPUTER INC."),
   ("AC:9E:17", "ASUSTek COMPUTER INC."),
   ("D8:50:E6", "ASUSTek COMPUTER INC."),
   ("00:0B:A2", "NEC Corporation"),
   ("00:30:13", "NEC Corporation"),
   ("00:70:4C", "NEC Corporation"),
   ("00:14:6C", "NETGEAR"),
   ("00:1F:33", "NETGEAR"),
   ("20:E5:2A", "NETGEAR"),
   ("44:94:FC", "NETGEAR"),
   ("6C:B0:CE", "NETGEAR"),
   ("B0:7F:B9", "NETGEAR"),
   ("C4:04:15", "NETGEAR"),
   ("B8:27:EB", "Raspberry Pi Foundation"),
   ("DC:A6:32", "Raspberry Pi Foundation"),
   ("E4:5F:01", "Raspberry Pi Foundation"),
   ("24:0A:C4", "Espressif Inc."),
   ("30:AE:A4", "Espressif Inc."),
   ("A4:CF:12", "Espressif Inc."),
   ("CC:50:E3", "Espressif Inc."),
   ("84:CC:A8", "Espressif Inc."),
   ("00:1C:62", "LG Electronics"),
   ("10:68:3F", "LG Electronics"),
   ("2C:54:CF", "LG Electronics"),
   ("58:A2:B5", "LG Electronics"),
   ("A8:23:FE", "LG Electronics"),
   ("00:0E:6B", "Panasonic Corporation"),
   ("00:1B:52", "Panasonic Corporation"),
   ("10:5F:06", "Panasonic Corporation"),
   ("34:FC:EF", "Panasonic Corporation"),
   ("00:09:BF", "Nintendo Co.,Ltd"),
   ("00:17:AB", "Nintendo Co.,Ltd"),
   ("00:1E:35", "Nintendo Co.,Ltd"),
   ("00:24:1E", "Nintendo Co.,Ltd"),
   ("34:AF:2C", "Nintendo Co.,Ltd"),
   ("58:BD:A3", "Nintendo Co.,Ltd"),
   ("7C:BB:8A", "Nintendo Co.,Ltd"),
   ("98:B6:E9", "Nintendo Co.,Ltd"),
   ("E8:4E:CE", "Nintendo Co.,Ltd"),
   ("28:18:78", "Microsoft Corporation"),
   ("60:45:BD", "Microsoft Corporation"),
   ("7C:1E:52", "Microsoft Corporation"),
   ("C8:3F:26", "Microsoft Corporation"),
   ("00:1E:64", "Intel Corporate"),
   ("3C:97:0E", "Intel Corporate"),
   ("68:05:CA", "Intel Corporate"),
   ("8C:EC:4B", "Intel Corporate"),
   ("C0:56:E3", "Hangzhou Hikvision Digital Technology"),
   ("44:19:B6", "Hangzhou Hikvision Digital Technology"),
   ("54:C4:15", "Hangzhou Hikvision Digital Technology"),
   ("3C:EF:8C", "Zhejiang Dahua Technology Co., Ltd."),
   ("A0:BD:CD", "Zhejiang Dahua Technology Co., Ltd."),
   ("00:0E:58", "Sonos, Inc."),
   ("34:7E:5C", "Sonos, Inc."),
   ("48:A6:B8", "Sonos, Inc."),
   ("78:28:CA", "Sonos, Inc."),
   ("04:52:C7", "Bose Corporation"),
   ("08:DF:1F", "Bose Corporation"),
   ("00:1D:62", "ELECOM CO.,LTD."),
   ("74:03:BD", "ELECOM CO.,LTD."),
   ("C8:2E:47", "ELECOM CO.,LTD."),
   ("94:65:2D", "OnePlus Technology (Shenzhen) Co., Ltd"),
   ("C0:EE:40", "OnePlus Technology (Shenzhen) Co., Ltd"),
   ("00:04:56", "Motorola Mobility LLC"),
   ("68:C4:4D", "Motorola Mobility LLC"),
   ("E8:65:D4", "Motorola Mobility LLC")]

/-- `ROUTER_VENDORS` from scanner/fingerprint.rs (lines 254-267). -/
def ROUTER_VENDORS : List String :=
  ["Buffalo", "TP-LINK", "Netgear", "ASUS", "Elecom", "NEC",
   "Yamaha", "I-O DATA", "Planex", "Corega", "Arcadyan", "NETGEAR"]

/-- `CAMERA_VENDORS` from scanner/fingerprint.rs (lines 270-277). -/
def CAMERA_VENDORS : List String :=
  ["Hikvision", "Dahua", "Axis", "Panasonic", "Wyze", "Ring"]

/-- `SMART_SPEAKER_VENDORS` from scanner/fingerprint.rs (lines 280-283). -/
def SMART_SPEAKER_VENDORS : List String := ["Sonos", "Bose"]

/-- `SMARTPHONE_VENDORS` from scanner/fingerprint.rs (lines 286-293). -/
def SMARTPHONE_VENDORS : List String :=
  ["Samsung", "Xiaomi", "Huawei", "OPPO", "OnePlus", "Motorola"]

/-- `SMART_TV_VENDORS` from scanner/fingerprint.rs (lines 296-298). -/
def SMART_TV_VENDORS : List String := ["LG Electronics"]

/-- `GAMING_VENDORS` from scanner/fingerprint.rs (lines 301-304). -/
def GAMING_VENDORS : List String := ["Nintendo", "Microsoft"]

/-- `IOT_VENDORS` from scanner/fingerprint.rs (lines 307-310). -/
def IOT_VENDORS : List String := ["Raspberry Pi", "Espressif"]

/-- `SMARTPHONE_NAME_PATTERNS` from scanner/fingerprint.rs (lines 313-318). -/
def SMARTPHONE_NAME_PATTERNS : List String :=
  ["iphone", "ipad", "galaxy", "pixel", "android",
   "redmi", "xperia", "huawei", "oppo", "oneplus",
   "aquos", "arrows", "motorola", "moto ",
   "sm-", "gt-", "sch-", "sgh-"]

/-- `TV_NAME_PATTERNS` from scanner/fingerprint.rs (lines 321-323). -/
def TV_NAME_PATTERNS : List String :=
  ["tv", "テレビ", "bravia", "viera", "regza", "aquos"]

/-- `COMPUTER_NAME_PATTERNS` from scanner/fingerprint.rs (lines 326-329). -/
def COMPUTER_NAME_PATTERNS : List String :=
  ["macbook", "imac", "mac-mini", "desktop", "laptop",
   "surface", "thinkpad", "dell", "hp-", "lenovo"]

/-- `lookup_vendor` from scanner/fingerprint.rs (lines 332-345): uppercase
the MAC, take the first 8 characters, linear-scan the OUI table. -/
def lookup_vendor (mac : String) : Option String :=
  let pfx := String.mk ((mac.toList.map upperChar).take 8)
  (OUI_DATABASE.find? fun entry => pfx = entry.1).map (·.2)

/-- `identify_device_type` from scanner/fingerprint.rs (lines 348-433).
The first parameter embeds the Rust `_mac` parameter, which the body
never reads. -/
def identify_device_type (_mac : String) (vendor : Option String)
    (name : Option String) : DeviceType :=
  let byName : Option DeviceType :=
    match name with
    | some n =>
      let lower := toLowerStr n
      if SMARTPHONE_NAME_PATTERNS.any (fun p => strContains lower p) then
        some .Smartphone
      else if COMPUTER_NAME_PATTERNS.any (fun p => strContains lower p) then
        some .Computer
      else if TV_NAME_PATTERNS.any (fun p => strContains lower p) then
        some .SmartTv
      else none
    | none => none
  match byName with
  | some t => t
  | none =>
    let vendor_str := vendor.getD ""
    if ROUTER_VENDORS.any (fun v => strContains vendor_str v) then .Router
    else if CAMERA_VENDORS.any (fun v => strContains vendor_str v) then .Camera
    else if SMART_SPEAKER_VENDORS.any (fun v => strContains vendor_str v) then .SmartSpeaker
    else if SMARTPHONE_VENDORS.any (fun v => strContains vendor_str v) then .Smartphone
    else if SMART_TV_VENDORS.any (fun v => strContains vendor_str v) then .SmartTv
    else if GAMING_VENDORS.any (fun v => strContains vendor_str v) then .SmartPlug
    else if strContains vendor_str "Apple" then .Smartphone
    else if strContains vendor_str "Google" then .SmartSpeaker
    else if strContains vendor_str "Amazon" then .SmartSpeaker
    else if strContains vendor_str "Sony" then .SmartTv
    else if IOT_VENDORS.any (fun v => strContains vendor_str v) then .SmartPlug
    else if strContains vendor_str "Intel" then .Computer
    else .Unknown

/-- Generic first-match semantics of a priority ladder: the first rung
whose test accepts the input wins; `Unknown` when none does. -/
def firstMatch {α : Type} : List ((α → Bool) × DeviceType) → α → DeviceType
  | [], _ => .Unknown
  | rung :: rest, x => if rung.1 x then rung.2 else firstMatch rest x

/-- The classification ladder of `identify_device_type` as an explicit
ordered rung list: one rung per rule, in the code's order — the name
patterns (smartphone, computer, TV) first, then the vendor substring
sets and the per-vendor-family fallbacks.  A rung's test takes the pair
`(vendor_str, lowercased name)`; a missing name or vendor enters as the
empty string, which no (nonempty) pattern matches. -/
def rungList : List ((String × String → Bool) × DeviceType) :=
  [(fun x => SMARTPHONE_NAME_PATTERNS.any fun p => strContains x.2 p, .Smartphone),
   (fun x => COMPUTER_NAME_PATTERNS.any fun p => strContains x.2 p, .Computer),
   (fun x => TV_NAME_PATTERNS.any fun p => strContains x.2 p, .SmartTv),
   (fun x => ROUTER_VENDORS.any fun p => strContains x.1 p, .Router),
   (fun x => CAMERA_VENDORS.any fun p => strContains x.1 p, .Camera),
   (fun x => SMART_SPEAKER_VENDORS.any fun p => strContains x.1 p, .SmartSpeaker),
   (fun x => SMARTPHONE_VENDORS.any fun p => strContains x.1 p, .Smartphone),
   (fun x => SMART_TV_VENDORS.any fun p => strContains x.1 p, .SmartTv),
   (fun x => GAMING_VENDORS.any fun p => strContains x.1 p, .SmartPlug),
   (fun x => strContains x.1 "Apple", .Smartphone),
   (fun x => strContains x.1 "Google", .SmartSpeaker),
   (fun x => strContains x.1 "Amazon", .SmartSpeaker),
   (fun x => strContains x.1 "Sony", .SmartTv),
   (fun x => IOT_VENDORS.any fun p => strContains x.1 p, .SmartPlug),
   (fun x => strContains x.1 "Intel", .Computer)]

/-- `identify_services` from scanner/fingerprint.rs (lines 436-458): walk
the open ports in order, refining an `Unknown` device type to `Camera`
(port 554) or `Printer` (port 631); ports 1883/8883 change nothing. -/
def identify_services (device : Device) : Device :=
  device.open_ports.foldl
    (fun d p =>
      if p.number = 554 then
        if d.device_type = DeviceType.Unknown then
          { d with device_type := .Camera }
        else d
      else if p.number = 631 then
        if d.device_type = DeviceType.Unknown then
          { d with device_type := .Printer }
        else d
      else d)
    device

/-- Bitwise complement of a `u32` value (Rust `!mask_u32`), i.e.
`2 ^ 32 - 1 - m` for `m < 2 ^ 32`. -/
def compl32 (m : Nat) : Nat := 2 ^ 32 - 1 - m

/-- `get_ips_in_subnet` from scanner/arp.rs (lines 77-89): compute
`network = ip & mask` and `broadcast = network | !mask`, then collect the
addresses of the half-open range `network+1 .. broadcast`.
`List.range' a n` enumerates `a, a+1, …, a+n-1`, matching the Rust
iteration of `(network_u32 + 1)..broadcast_u32`. -/
def get_ips_in_subnet (ip mask : Nat) : List Nat :=
  List.range' ((ip &&& mask) + 1)
    (((ip &&& mask) ||| compl32 mask) - ((ip &&& mask) + 1))

/-- Population count (number of set bits), written with structural fuel so
that it evaluates by `decide`; `n` itself is always enough fuel. -/
def popcountAux : Nat → Nat → Nat
  | 0, _ => 0
  | fuel + 1, n => if n = 0 then 0 else n % 2 + popcountAux fuel (n / 2)

/-- Population count of a natural number. -/
def popcount (n : Nat) : Nat := popcountAux n n

/-- Whitespace test used by Rust `split_whitespace`, restricted to the
ASCII range (ARP-table lines are ASCII). -/
def isWsChar (c : Char) : Bool :=
  c = ' ' || c = '\t' || c = '\n' || c = '\r' ||
  c = Char.ofNat 11 || c = Char.ofNat 12

/-- Worker for `split_whitespace`: `acc` holds the current token reversed. -/
def splitWsGo : List Char → List Char → List String
  | [], acc => if acc.isEmpty then [] else [String.mk acc.reverse]
  | c :: rest, acc =>
    if isWsChar c then
      if acc.isEmpty then splitWsGo rest []
      else String.mk acc.reverse :: splitWsGo rest []
    else splitWsGo rest (c :: acc)

/-- Rust `str::split_whitespace` (empty tokens dropped). -/
def split_whitespace (s : String) : List String := splitWsGo s.toList []

/-- The per-line step of `parse_arp_table` in scanner/arp.rs
(lines 103-119): split on whitespace, skip lines with fewer than six
fields, take fields 0 (IP) and 3 (MAC) verbatim, and drop the entry when
the MAC is the incomplete marker `00:00:00:00:00:00`. -/
def parse_arp_line (line : String) : Option (String × String) :=
  let parts := split_whitespace line
  if parts.length < 6 then none
  else
    let ip := parts.getD 0 ""
    let mac := parts.getD 3 ""
    if mac ≠ "00:00:00:00:00:00" then some (ip, mac) else none

/-- `parse_arp_table` from scanner/arp.rs (lines 91-122) applied to the
lines of `/proc/net/arp`: the first line is the header and is skipped,
every other line goes through `parse_arp_line`. -/
def parse_arp_table (lines : List String) : List (String × String) :=
  (lines.drop 1).filterMap parse_arp_line

/-- Is `c` an uppercase hexadecimal digit? -/
def isUpperHexDigit (c : Char) : Bool :=
  ('0' ≤ c ∧ c ≤ '9') || ('A' ≤ c ∧ c ≤ 'F')

/-- Canonical uppercase hex-with-colons MAC form `AA:BB:CC:DD:EE:FF`, as
the spec's data-model invariant describes it. -/
def is_canonical_mac (s : String) : Bool :=
  match s.toList with
  | [a, b, ':', c, d, ':', e, f, ':', g, h, ':', i, j, ':', k, l] =>
    [a, b, c, d, e, f, g, h, i, j, k, l].all isUpperHexDigit
  | _ => false

/-- Indexed byte read `data[i]` modelled totally: the value at `i`, or 0
out of bounds.  Every use below sits under a bounds guard, which
`parse_nbns_checked` makes explicit. -/
def rdByte (data : List Nat) (i : Nat) : Nat := (data[i]?).getD 0

/-- The 32 bytes of the NetBIOS first-level encoding of `"*"` padded with
NULs: ASCII `CK` followed by thirty `A`s (scanner/nbns.rs line 35). -/
def nbnsEncodedName : List Nat := [0x43, 0x4B] ++ List.replicate 30 0x41

/-- `build_nbns_status_request` from scanner/nbns.rs (lines 12-45).  The
transaction id is a `u16` serialised big-endian; the embedding accepts any
`Nat` and extracts the two low bytes exactly as `u16::to_be_bytes` does. -/
def build_nbns_status_request (transaction_id : Nat) : List Nat :=
  [transaction_id / 256 % 256, transaction_id % 256] ++
  [0x00, 0x00] ++
  [0x00, 0x01] ++
  [0x00, 0x00] ++
  [0x00, 0x00] ++
  [0x00, 0x00] ++
  [0x20] ++
  nbnsEncodedName ++
  [0x00] ++
  [0x00, 0x21] ++
  [0x00, 0x01]

/-- ASCII whitespace at the byte level: the bytes whose decoded character
Rust `str::trim_end` removes.  (`from_utf8_lossy` maps bytes ≥ 0x80 that
do not form valid UTF-8 to U+FFFD, which is not whitespace; multi-byte
Unicode whitespace sequences are outside the protocol's 15-byte ASCII
names and are elided from the byte-level model.) -/
def isWsByte (b : Nat) : Bool :=
  b = 9 || b = 10 || b = 11 || b = 12 || b = 13 || b = 32

/-- Drop trailing whitespace bytes (Rust `trim_end` on the decoded name). -/
def trimEndWs (l : List Nat) : List Nat :=
  (l.reverse.dropWhile isWsByte).reverse

/-- Drop trailing space bytes only — the operation named by the spec's
words "the name with trailing spaces stripped". -/
def trimEndSpaces (l : List Nat) : List Nat :=
  (l.reverse.dropWhile (· = 32)).reverse

/-- The label-skipping loop of `parse_nbns_response` (scanner/nbns.rs
lines 69-71): while `pos < data.len() && data[pos] != 0`, advance by
`data[pos] + 1`.  Returns the final `pos` (before the `pos += 1` that
skips the terminator). -/
def skipName (data : List Nat) (pos : Nat) : Nat :=
  if h : pos < data.length ∧ rdByte data pos ≠ 0 then
    skipName data (pos + rdByte data pos + 1)
  else pos
termination_by data.length - pos
decreasing_by omega

/-- The name-entry loop of `parse_nbns_response` (scanner/nbns.rs lines
86-110): up to `count` entries of 18 bytes each starting at `pos`; an
entry whose big-endian flags have bit 15 clear and whose trimmed 15-byte
name is nonempty is returned; an incomplete entry breaks out of the
loop. -/
def scanEntries (data : List Nat) : Nat → Nat → Option (List Nat)
  | _, 0 => none
  | pos, count + 1 =>
    if pos + 18 > data.length then none
    else if (rdByte data (pos + 16) * 256 + rdByte data (pos + 17)) &&& 0x8000 = 0
        ∧ trimEndWs ((data.drop pos).take 15) ≠ [] then
      some (trimEndWs ((data.drop pos).take 15))
    else scanEntries data (pos + 18) count

/-- The tail of `parse_nbns_response` after the answer name has been
skipped (scanner/nbns.rs lines 76-112): `pos1` is the position after the
name, `pos1 + 10` the position of the name count after TYPE + CLASS +
TTL + RDLENGTH. -/
def nbns_answer_section (data : List Nat) (pos1 : Nat) : Option (List Nat) :=
  if pos1 + 10 ≥ data.length then none
  else scanEntries data (pos1 + 10 + 1) (rdByte data (pos1 + 10))

/-- `parse_nbns_response` from scanner/nbns.rs (lines 49-113).  The
returned name is kept as its byte list.  The second length test embeds
the Rust `if pos >= data.len()` at `pos = 12`, unreachable after the
57-byte check but kept for fidelity; `nbns_answer_section` is the tail of
the function after the answer name has been skipped (`pos1` is the
position after the name, `pos1 + 10` the position of the name count). -/
def parse_nbns_response (data : List Nat) : Option (List Nat) :=
  if data.length < 57 then none
  else if data.length ≤ 12 then none
  else if rdByte data 12 &&& 0xC0 = 0xC0 then nbns_answer_section data 14
  else nbns_answer_section data (skipName data 12 + 1)

/-- Bounds-checked variant of `skipName`: the loop guard reads `data[pos]`
only after establishing `pos < data.len()`, so the checked read can in
fact never fail; the `Except` layer records that. -/
def skipNameCk (data : List Nat) (pos : Nat) : Except Unit Nat :=
  if _h : pos < data.length then
    match data[pos]? with
    | some b => if b ≠ 0 then skipNameCk data (pos + b + 1) else .ok pos
    | none => .error ()
  else .ok pos
termination_by data.length - pos
decreasing_by omega

/-- Bounds-checked variant of `scanEntries`: every indexed byte read goes
through `List.getElem?` and an out-of-bounds read aborts with `.error`.
The 15-byte name slice `&data[pos..pos + 15]` is covered by the
`pos + 18 ≤ data.len()` guard under which it is taken. -/
def scanEntriesCk (data : List Nat) : Nat → Nat → Except Unit (Option (List Nat))
  | _, 0 => .ok none
  | pos, count + 1 =>
    if pos + 18 > data.length then .ok none
    else
      match data[pos + 16]?, data[pos + 17]? with
      | some b16, some b17 =>
        if (b16 * 256 + b17) &&& 0x8000 = 0 ∧
            trimEndWs ((data.drop pos).take 15) ≠ [] then
          .ok (some (trimEndWs ((data.drop pos).take 15)))
        else scanEntriesCk data (pos + 18) count
      | _, _ => .error ()

/-- Bounds-checked variant of `nbns_answer_section`. -/
def nbns_answer_section_checked (data : List Nat) (pos1 : Nat) :
    Except Unit (Option (List Nat)) :=
  if pos1 + 10 ≥ data.length then .ok none
  else
    match data[pos1 + 10]? with
    | none => .error ()
    | some num => scanEntriesCk data (pos1 + 10 + 1) num

/-- Bounds-checked variant of `parse_nbns_response`: mirrors the parser
with every `data[i]` access replaced by a checked read. -/
def parse_nbns_checked (data : List Nat) : Except Unit (Option (List Nat)) :=
  if data.length < 57 then .ok none
  else if data.length ≤ 12 then .ok none
  else
    match data[12]? with
    | none => .error ()
    | some b12 =>
      if b12 &&& 0xC0 = 0xC0 then nbns_answer_section_checked data 14
      else
        match skipNameCk data 12 with
        | .error e => .error e
        | .ok p => nbns_answer_section_checked data (p + 1)

/-- One 18-byte entry of the answer, addressed arithmetically as the
claim describes it: entry `i` lives at `base + 18 * i`, carries 15 name
bytes, one suffix byte, and two big-endian flag bytes, and is returned
when flag bit 15 is clear and its trimmed name is nonempty. -/
def nbns_claim_entry (trim : List Nat → List Nat) (data : List Nat)
    (base i : Nat) : Option (List Nat) :=
  if base + 18 * i + 18 ≤ data.length then
    if (rdByte data (base + 18 * i + 16) * 256 +
          rdByte data (base + 18 * i + 17)) &&& 0x8000 = 0 ∧
        trim ((data.drop (base + 18 * i)).take 15) ≠ [] then
      some (trim ((data.drop (base + 18 * i)).take 15))
    else none
  else none

/-- The tail of the claim's description of the parser: skip 10 further
bytes past the answer name, read one count byte, and return the first of
that many 18-byte entries (enumerated arithmetically through
`nbns_claim_entry`) whose flags have bit 15 clear and whose trimmed name
is nonempty. -/
def nbns_claim_tail (trim : List Nat → List Nat) (data : List Nat)
    (afterName : Nat) : Option (List Nat) :=
  ((List.range (rdByte data (afterName + 10))).filterMap
    (nbns_claim_entry trim data (afterName + 10 + 1))).head?

/-- The NBNS response parser as the claim's sentence describes it,
parameterised by the trimming operation: reject under 57 bytes, skip the
12-byte header, skip the answer name (a 2-byte pointer when the first
byte's high two bits are `11`, else zero-terminated length-prefixed
labels), then hand over to `nbns_claim_tail`. -/
def nbns_claim_parse (trim : List Nat → List Nat) (data : List Nat) :
    Option (List Nat) :=
  if data.length < 57 then none
  else if rdByte data 12 &&& 0xC0 = 0xC0 then nbns_claim_tail trim data 14
  else nbns_claim_tail trim data (skipName data 12 + 1)

/-- Lookup in an association list, modelling `HashMap::get` on the name
maps the resolvers produce. -/
def mapGet (m : List (String × String)) (k : String) : Option String :=
  (m.find? fun kv => kv.1 = k).map (·.2)

/-- The display-name fusion of `scan_network` (scanner/mod.rs lines
185-191): `m_name.or(nb_name).or(ssdp_name).or(dns_hostname).or(vendor
fallback)`, where the fallback formats the vendor as `"{} デバイス"`. -/
def choose_display_name (m_name nb_name ssdp_name dns_hostname vendor :
    Option String) : Option String :=
  (((m_name.or nb_name).or ssdp_name).or dns_hostname).or
    (vendor.map fun v => v ++ " デバイス")

/-- The environment a scan runs against: the outcome of every external
interaction, passed explicitly.  `sweeper` is the result of
`arp::discover_devices`; `mdnsDaemonOk`/`mdnsBrowseOk`/`mdnsMap` drive the
mDNS task (see `scan_mdns_result`); `ssdpOk`/`ssdpMap` drive
`ssdp::scan_ssdp`; `nbns` and `dns` give each IP's NBNS answer and
DNS-PTR answer (`none` on any failure or timeout); `probe ip port` is the
TCP connect outcome (`none` when the probe itself fails). -/
structure ScanEnv where
  sweeper : Except ScanError (List (String × String))
  mdnsDaemonOk : Bool
  mdnsBrowseOk : Bool
  mdnsMap : List (String × String)
  ssdpOk : Bool
  ssdpMap : List (String × String)
  nbns : String → Option String
  dns : String → Option String
  probe : String → Nat → Option Bool

/-- Result of the blocking mDNS task at the orchestrator's join point
(scanner/mod.rs lines 156-158, 163).  `scan_mdns` (mdns.rs lines 10-115)
returns the empty map when `ServiceDaemon::new` fails, but panics through
`.expect("Failed to browse")` (line 47) when the initial browse call
fails; the panic surfaces as the spawn-blocking join error, modelled as
`.error`.  The map a successful run collects is abstracted as `mdnsMap`. -/
def scan_mdns_result (env : ScanEnv) : Except String (List (String × String)) :=
  if ¬ env.mdnsDaemonOk then .ok []
  else if ¬ env.mdnsBrowseOk then .error "Failed to browse"
  else .ok env.mdnsMap

/-- Result of `ssdp::scan_ssdp` (ssdp.rs lines 23-77): every failure path
(bind, send, per-reply errors, fetch errors) degrades to an empty or
partial map, never an error.  `ssdpOk = false` models the bind/send
failure paths that return the empty map. -/
def scan_ssdp_result (env : ScanEnv) : List (String × String) :=
  if env.ssdpOk then env.ssdpMap else []

/-- Result of `nbns::scan_nbns` over the IP list (nbns.rs lines 118-145):
one optional name per queried IP; failed or timed-out queries contribute
nothing. -/
def scan_nbns_result (env : ScanEnv) (ips : List String) :
    List (String × String) :=
  ips.filterMap fun ip => (env.nbns ip).map fun n => (ip, n)

/-- The per-host Device construction of `scan_network` (scanner/mod.rs
lines 171-213): vendor via OUI, DNS-PTR hostname, name fusion by
priority, device-type classification, hostname fusion
(DNS > mDNS > NBNS), and the initial port/score fields. -/
def build_device (env : ScanEnv) (mdnsMap nbnsMap ssdpMap :
    List (String × String)) (ipmac : String × String) : Device :=
  let ip := ipmac.1
  let mac := ipmac.2
  let vendor := lookup_vendor mac
  let dns_hostname := env.dns ip
  let m_name := mapGet mdnsMap ip
  let nb_name := mapGet nbnsMap ip
  let ssdp_name := mapGet ssdpMap ip
  let name := choose_display_name m_name nb_name ssdp_name dns_hostname vendor
  let device_type := identify_device_type mac vendor name
  let hostname := (dns_hostname.or m_name).or nb_name
  { name := name
    device_type := device_type
    ip := ip
    mac := mac
    vendor := vendor
    hostname := hostname
    open_ports := []
    security_level := .Unknown
    security_score := 0
    issues := [] }

/-- `has_default_password` from scanner/mod.rs (lines 293-296): a stub
that always answers `false`. -/
def has_default_password (_device : Device) : Bool := false

/-- The `default-password` issue literal of `check_vulnerabilities`
(scanner/mod.rs lines 258-265). -/
def issueDefaultPassword : SecurityIssue :=
  { id := "default-password"
    severity := .Critical
    title := "デフォルトパスワードが使用されています"
    description := "このデバイスは工場出荷時のパスワードが使用されています。悪意のある第三者に不正アクセスされる危険があります。"
    remediation := "デバイスの管理画面にログインし、パスワードを強力なものに変更してください。" }

/-- The `telnet-open` issue literal of `check_vulnerabilities`
(scanner/mod.rs lines 270-277). -/
def issueTelnetOpen : SecurityIssue :=
  { id := "telnet-open"
    severity := .High
    title := "Telnetポートが開放されています"
    description := "Telnetは暗号化されていない通信プロトコルです。パスワードが平文で送信されるため、盗聴される危険があります。"
    remediation := "Telnetを無効化し、SSHを使用するか、デバイスの管理画面からリモート管理を無効にしてください。" }

/-- The `upnp-enabled` issue literal of `check_vulnerabilities`
(scanner/mod.rs lines 282-289). -/
def issueUpnpEnabled : SecurityIssue :=
  { id := "upnp-enabled"
    severity := .Medium
    title := "UPnPが有効です"
    description := "UPnPは自動的にポートを開放する機能です。悪意のあるソフトウェアに悪用される可能性があります。"
    remediation := "ルーターの管理画面からUPnPを無効にすることを検討してください。" }

/-- `check_vulnerabilities` from scanner/mod.rs (lines 255-291): append
the default-password issue (never, since the check is a stub), the
telnet-open issue when port 23 is open, and the upnp-enabled issue when
port 1900 is open. -/
def check_vulnerabilities (device : Device) : Device :=
  let issues1 :=
    if has_default_password device then device.issues ++ [issueDefaultPassword]
    else device.issues
  let issues2 :=
    if device.open_ports.any (fun p => p.number = 23) then
      issues1 ++ [issueTelnetOpen]
    else issues1
  let issues3 :=
    if device.open_ports.any (fun p => p.number = 1900) then
      issues2 ++ [issueUpnpEnabled]
    else issues2
  { device with issues := issues3 }

/-- `scan_network` from scanner/mod.rs (lines 140-245), with all network
effects read from `env`.  Progress-event emission (a fire-and-forget UI
side effect) is not part of the returned value and is elided. -/
def scan_network (env : ScanEnv) (level : ScanLevel) :
    Except ScanError (List Device) :=
  match env.sweeper with
  | .error e => .error e
  | .ok discovered =>
    match scan_mdns_result env with
    | .error e => .error (.Internal e)
    | .ok mdnsMap =>
      let ssdpMap := scan_ssdp_result env
      let ip_list := discovered.map (·.1)
      let nbnsMap := scan_nbns_result env ip_list
      let devices := discovered.map (build_device env mdnsMap nbnsMap ssdpMap)
      let afterPorts : Except ScanError (List Device) :=
        if level = ScanLevel.Level2 ∨ level = ScanLevel.Level3 then
          (devices.mapM fun d =>
            (scan_ports (env.probe d.ip)).map
              fun ps => { d with open_ports := ps }).map
            fun ds => ds.map identify_services
        else .ok devices
      match afterPorts with
      | .error e => .error e
      | .ok devices2 =>
        let devices3 :=
          if level = ScanLevel.Level3 then devices2.map check_vulnerabilities
          else devices2
        .ok (devices3.map calculate_security_score)

/-- Did the computation succeed? -/
def isOkB : Except ScanError (List Device) → Bool
  | .ok _ => true
  | .error _ => false

/-- Did the sweeper succeed? -/
def sweeperOkB : Except ScanError (List (String × String)) → Bool
  | .ok _ => true
  | .error _ => false

/-- Did the mDNS task complete without panicking? -/
def mdnsOkB : Except String (List (String × String)) → Bool
  | .ok _ => true
  | .error _ => false

/-- The device list of a successful scan. -/
def devicesOf : Except ScanError (List Device) → List Device
  | .ok l => l
  | .error _ => []

/-- A port exactly as the port prober constructs it (ports.rs lines 37-43). -/
def proberPort (n : Nat) : Port :=
  { number := n
    protocol := "tcp"
    service := some (identify_service n)
    version := none
    is_secure := is_secure_service n }

/-- A device with no issues and no open ports. -/
def deviceBare : Device :=
  { name := none
    device_type := .Unknown
    ip := "192.168.1.10"
    mac := "aa:bb:cc:dd:ee:ff"
    vendor := none
    hostname := none
    open_ports := []
    security_level := .Unknown
    security_score := 0
    issues := [] }

/-- A device with exactly one Critical issue and no open ports. -/
def deviceOneCritical : Device :=
  { deviceBare with issues := [issueDefaultPassword] }

/-- A device with open ports 23 and 80 (as probed) whose only issue is
the High-severity telnet issue. -/
def deviceTelnet : Device :=
  { deviceBare with
    open_ports := [proberPort 23, proberPort 80]
    issues := [issueTelnetOpen] }

/-- An environment whose sweeper succeeds with one host and whose name
resolvers all run but find nothing. -/
def envOneHost : ScanEnv :=
  { sweeper := .ok [("192.168.1.1", "aa:bb:cc:dd:ee:ff")]
    mdnsDaemonOk := true
    mdnsBrowseOk := true
    mdnsMap := []
    ssdpOk := true
    ssdpMap := []
    nbns := fun _ => none
    dns := fun _ => none
    probe := fun _ _ => none }

/-- An environment whose sweeper succeeds but whose mDNS browse call
fails, making the mDNS task panic through `.expect`. -/
def envMdnsPanic : ScanEnv :=
  { sweeper := .ok []
    mdnsDaemonOk := true
    mdnsBrowseOk := false
    mdnsMap := []
    ssdpOk := true
    ssdpMap := []
    nbns := fun _ => none
    dns := fun _ => none
    probe := fun _ _ => none }

/-- A 57-byte NBNS response: pointer-compressed answer name, one name
entry whose 15 name bytes are `A`, `B`, a TAB, then twelve spaces, with
suffix 0 and flags 0x0000 (a unique name). -/
def nbnsTabResponse : List Nat :=
  List.replicate 12 0 ++ [0xC0, 0x0C] ++ List.replicate 10 0 ++ [1] ++
  ([65, 66, 9] ++ List.replicate 12 32) ++ [0] ++ [0, 0] ++
  List.replicate 14 0

/-- An environment whose sweeper fails (no usable interface). -/
def envSweepFail : ScanEnv :=
  { envOneHost with
    sweeper := .error (.NetworkError "Could not find suitable network interface") }

/-- An environment whose SSDP discoverer fails (bind or send error). -/
def envSsdpFail : ScanEnv := { envOneHost with ssdpOk := false }

/-- A probe function that fails on port 23 and reports every other port
open. -/
def probeAllOpenBut23 : Nat → Option Bool :=
  fun port => if port = 23 then none else some true

/-- The single device of a Level-1 scan of `envOneHost`. -/
def level1Device : Device :=
  (devicesOf (scan_network envOneHost .Level1)).getD 0 deviceBare

/-- The `/proc/net/arp` data line of the spec's scenario 2. -/
def arpLineGood : String := "192.168.1.1 0x1 0x2 aa:bb:cc:dd:ee:ff * eth0"

/-- The same line with the incomplete-entry MAC. -/
def arpLineIncomplete : String := "192.168.1.1 0x1 0x2 00:00:00:00:00:00 * eth0"

/-- The `/proc/net/arp` header line. -/
def arpHeaderLine : String :=
  "IP address       HW type     Flags       HW address            Mask     Device"

/-! ## Helper lemmas -/

theorem foldl_sub_issues (l : List SecurityIssue) (a : Int) :
    l.foldl (fun s issue => s - severityPenalty issue.severity) a =
      a - (l.map fun issue => severityPenalty issue.severity).sum := by
  induction l generalizing a with
  | nil => simp
  | cons x xs ih =>
    simp only [List.foldl_cons, List.map_cons, List.sum_cons, ih]
    ring

theorem foldl_sub_ports (l : List Port) (a : Int) :
    l.foldl (fun s p => if p.is_secure then s else s - 5) a =
      a - 5 * (l.countP fun p => !p.is_secure) := by
  induction l generalizing a with
  | nil => simp
  | cons x xs ih =>
    simp only [List.foldl_cons, List.countP_cons, ih]
    by_cases hx : x.is_secure
    · simp [hx]
    · simp only [hx, if_false, Bool.not_false, if_true]
      push_cast
      ring

theorem clampScore_nonneg_form (s : Int) :
    (clampScore s : Int) = max 0 (min 100 s) := by
  simp only [clampScore]
  rw [Int.toNat_of_nonneg (le_max_left _ _)]

theorem clampScore_le (s : Int) : clampScore s ≤ 100 := by
  have h := clampScore_nonneg_form s
  have h2 : max 0 (min 100 s) ≤ (100 : Int) :=
    max_le (by norm_num) (min_le_left _ _)
  omega

theorem levelOfScore_buckets (c : Nat) (hc : c ≤ 100) :
    levelOfScore c =
      (if 80 ≤ c then SecurityLevel.Safe
       else if 50 ≤ c then SecurityLevel.Warning
       else SecurityLevel.Danger) := by
  simp only [levelOfScore]
  split_ifs <;> first | rfl | omega

/-! ## C1 — security score arithmetic and level bucketing -/

/-- C1: for every device the security score starts at 100, subtracts 40
per Critical, 25 per High, 15 per Medium, 5 per Low, 0 per Info issue and
5 per insecure open port, clamps to `[0, 100]`, and the level buckets as
Safe on `[80, 100]`, Warning on `[50, 79]`, Danger on `[0, 49]`; a bare
device scores 100, one Critical issue alone scores 60, and open ports
{23, 80} with just the High telnet issue score 65 and bucket Warning. -/
theorem security_score_spec : (∀ device : Device,
    ((calculate_security_score device).security_score : Int) =
      max 0 (min 100
        (100 - (device.issues.map fun issue =>
            severityPenalty issue.severity).sum -
          5 * (device.open_ports.countP fun p => !p.is_secure))) ∧
    (calculate_security_score device).security_score ≤ 100 ∧
    (calculate_security_score device).security_level =
      (if 80 ≤ (calculate_security_score device).security_score then
        SecurityLevel.Safe
      else if 50 ≤ (calculate_security_score device).security_score then
        SecurityLevel.Warning
      else SecurityLevel.Danger)) ∧
    (calculate_security_score deviceBare).security_score = 100 ∧
    (calculate_security_score deviceOneCritical).security_score = 60 ∧
    (calculate_security_score deviceTelnet).security_score = 65 ∧
    (calculate_security_score deviceTelnet).security_level =
      SecurityLevel.Warning := by
  refine ⟨fun device => ⟨?_, ?_, ?_⟩, by decide, by decide, by decide, by decide⟩
  · show ((clampScore (rawScore device) : Nat) : Int) = _
    rw [clampScore_nonneg_form]
    simp only [rawScore, foldl_sub_issues, foldl_sub_ports]
  · exact clampScore_le _
  · show levelOfScore (clampScore (rawScore device)) = _
    exact levelOfScore_buckets _ (clampScore_le _)

/-! ## C9 — device-type classification ladder -/

/-- C9 counterexample: on the claimed fingerprinter input
`mac = "B8:27:EB:00:00:01"`, `vendor = None`, `name = Some "raspberrypi"`
the classifier returns `Unknown`, not `SmartPlug`: no name pattern
matches, and the function never consults the MAC, so no vendor lookup
happens. -/
theorem raspberrypi_without_vendor_is_unknown :
    identify_device_type "B8:27:EB:00:00:01" none (some "raspberrypi") =
      DeviceType.Unknown ∧
    identify_device_type "B8:27:EB:00:00:01" none (some "raspberrypi") ≠
      DeviceType.SmartPlug := by
  exact ⟨by decide, by decide⟩

/-- C9 amended: classification is the first-match semantics of the
explicit rung list `rungList` — name patterns (smartphone, then
computer, then TV) strictly before every vendor rule, then the vendor
rungs in code order, `Unknown` when no rung fires — while the MAC
parameter is ignored and the vendor is never looked up inside the
classifier.  With `vendor = None` the raspberrypi input therefore yields
`Unknown`; only when the caller passes the vendor that `lookup_vendor`
produces for `B8:27:EB:00:00:01` (namely "Raspberry Pi Foundation") does
the IoT rung yield `SmartPlug`. -/
theorem device_type_ladder :
    (∀ mac1 mac2 vendor name,
      identify_device_type mac1 vendor name =
        identify_device_type mac2 vendor name) ∧
    (∀ mac vendor name,
      identify_device_type mac vendor name =
        firstMatch rungList (vendor.getD "", toLowerStr (name.getD ""))) ∧
    identify_device_type "B8:27:EB:00:00:01" none (some "raspberrypi") =
      DeviceType.Unknown ∧
    lookup_vendor "B8:27:EB:00:00:01" = some "Raspberry Pi Foundation" ∧
    identify_device_type "B8:27:EB:00:00:01"
      (some "Raspberry Pi Foundation") (some "raspberrypi") =
        DeviceType.SmartPlug := by
  refine ⟨fun _ _ _ _ => rfl, fun mac vendor name => ?_,
    by decide, by decide, by decide⟩
  cases name with
  | none => rfl
  | some n =>
    simp only [identify_device_type, firstMatch, rungList, Option.getD_some]
    by_cases h1 : SMARTPHONE_NAME_PATTERNS.any fun p =>
      strContains (toLowerStr n) p
    · simp [h1]
    · by_cases h2 : COMPUTER_NAME_PATTERNS.any fun p =>
        strContains (toLowerStr n) p
      · simp [h1, h2]
      · by_cases h3 : TV_NAME_PATTERNS.any fun p =>
          strContains (toLowerStr n) p
        · simp [h1, h2, h3]
        · simp [h1, h2, h3]

/-! ## C4 — ARP table parsing and MAC canonical form -/

/-- C4 counterexample: the example data line parses to the pair with the
MAC kept verbatim in lowercase, which is not the canonical uppercase
`AA:BB:CC:DD:EE:FF` form the claim asserts for stored MACs. -/
theorem arp_mac_stored_lowercase :
    parse_arp_line arpLineGood =
      some ("192.168.1.1", "aa:bb:cc:dd:ee:ff") ∧
    is_canonical_mac "aa:bb:cc:dd:ee:ff" = false := by
  exact ⟨by decide, by decide⟩

/-- C4 amended: ARP parsing skips lines with fewer than six
whitespace-separated fields and never yields the broadcast MAC
`00:00:00:00:00:00`; the example line yields
`("192.168.1.1", "aa:bb:cc:dd:ee:ff")` — the MAC verbatim as it appears
in the table, not uppercased — and the same line with the broadcast MAC
yields nothing. -/
theorem arp_parse_spec :
    (∀ lines ip mac, (ip, mac) ∈ parse_arp_table lines →
      mac ≠ "00:00:00:00:00:00") ∧
    (∀ line, (split_whitespace line).length < 6 →
      parse_arp_line line = none) ∧
    parse_arp_line arpLineGood =
      some ("192.168.1.1", "aa:bb:cc:dd:ee:ff") ∧
    parse_arp_line arpLineIncomplete = none := by
  refine ⟨fun lines ip mac hmem => ?_, fun line hlen => ?_, by decide, by decide⟩
  · rcases List.mem_filterMap.mp hmem with ⟨line, _, hline⟩
    simp only [parse_arp_line] at hline
    split_ifs at hline with h1 h2
    · simp only [Option.some.injEq, Prod.mk.injEq] at hline
      rcases hline with ⟨_, rfl⟩
      exact h2
  · simp only [parse_arp_line, if_pos hlen]

/-- C4 witness: the amended theorem applied to a concrete two-line table
and a concrete short line. -/
theorem arp_parse_spec_witness :
    ("192.168.1.1", "aa:bb:cc:dd:ee:ff") ∈
      parse_arp_table [arpHeaderLine, arpLineGood] ∧
    "aa:bb:cc:dd:ee:ff" ≠ "00:00:00:00:00:00" ∧
    (split_whitespace "192.168.1.1 0x1").length < 6 ∧
    parse_arp_line "192.168.1.1 0x1" = none := by
  refine ⟨by decide,
    arp_parse_spec.1 [arpHeaderLine, arpLineGood] "192.168.1.1"
      "aa:bb:cc:dd:ee:ff" (by decide),
    by decide, arp_parse_spec.2.1 "192.168.1.1 0x1" (by decide)⟩

/-! ## C5 — display-name priority fusion -/

/-- C5: the display name is the mDNS name if present, else the NBNS name,
else the SSDP name, else the DNS-PTR hostname, else the vendor fallback
`"<vendor> デバイス"`, else none; whenever a higher-priority source has a
name, every lower-priority argument is ignored, and `build_device` wires
exactly these five sources into the fusion. -/
theorem display_name_priority :
    (∀ env mdnsMap nbnsMap ssdpMap ipmac,
      (build_device env mdnsMap nbnsMap ssdpMap ipmac).name =
        choose_display_name (mapGet mdnsMap ipmac.1) (mapGet nbnsMap ipmac.1)
          (mapGet ssdpMap ipmac.1) (env.dns ipmac.1)
          (lookup_vendor ipmac.2)) ∧
    (∀ n nb ss d v, choose_display_name (some n) nb ss d v = some n) ∧
    (∀ n ss d v, choose_display_name none (some n) ss d v = some n) ∧
    (∀ n d v, choose_display_name none none (some n) d v = some n) ∧
    (∀ n v, choose_display_name none none none (some n) v = some n) ∧
    (∀ v, choose_display_name none none none none (some v) =
      some (v ++ " デバイス")) ∧
    choose_display_name none none none none none = none := by
  exact ⟨fun _ _ _ _ _ => rfl, fun _ _ _ _ _ => rfl, fun _ _ _ _ => rfl,
    fun _ _ _ => rfl, fun _ _ => rfl, fun _ => rfl, rfl⟩

/-! ## C7 — NBNS Node Status Request wire format -/

/-- C7: for every transaction id the request is exactly 50 bytes; bytes
13..45 are the ASCII encoding `CK` + 30 × `A`, byte 12 is 0x20, byte 45
is 0x00, flags are 0x0000, the question count is 0x0001, the three RR
counts are zero, the QTYPE is 0x0021 and the QCLASS is 0x0001. -/
theorem nbns_request_format (transaction_id : Nat) :
    (build_nbns_status_request transaction_id).length = 50 ∧
    ((build_nbns_status_request transaction_id).drop 13).take 32 =
      nbnsEncodedName ∧
    (build_nbns_status_request transaction_id).getD 12 0 = 0x20 ∧
    (build_nbns_status_request transaction_id).getD 45 0 = 0x00 ∧
    ((build_nbns_status_request transaction_id).drop 2).take 2 = [0x00, 0x00] ∧
    ((build_nbns_status_request transaction_id).drop 4).take 2 = [0x00, 0x01] ∧
    ((build_nbns_status_request transaction_id).drop 6).take 6 =
      [0x00, 0x00, 0x00, 0x00, 0x00, 0x00] ∧
    ((build_nbns_status_request transaction_id).drop 46).take 2 =
      [0x00, 0x21] ∧
    ((build_nbns_status_request transaction_id).drop 48).take 2 =
      [0x00, 0x01] := by
  exact ⟨rfl, rfl, rfl, rfl, rfl, rfl, rfl, rfl, rfl⟩

/-! ## C2 — Level-1 security level -/

/-- C2 counterexample: a Level-1 scan of a one-host network yields a
device whose security level is `Safe` (score 100), not `Unknown`:
`calculate_security_score` runs unconditionally and maps 100 to `Safe`. -/
theorem level1_device_safe_not_unknown :
    (devicesOf (scan_network envOneHost .Level1)).map
      Device.security_level = [SecurityLevel.Safe] ∧
    (devicesOf (scan_network envOneHost .Level1)).map
      Device.security_score = [100] ∧
    SecurityLevel.Safe ≠ SecurityLevel.Unknown := by
  exact ⟨by decide, by decide, by decide⟩

/-- C2 amended: every device of a successful Level-1 scan has security
score 100 and security level `Safe` (not `Unknown`): Level 1 opens no
ports and synthesises no issues, and the unconditional scoring pass maps
the resulting score 100 to `Safe`. -/
theorem level1_devices_score_100_safe (env : ScanEnv) (devs : List Device)
    (h : scan_network env .Level1 = .ok devs) :
    ∀ d ∈ devs, d.security_score = 100 ∧ d.security_level = .Safe := by
  intro d hd
  rcases hs : env.sweeper with e | discovered
  · simp only [scan_network, hs] at h
    exact Except.noConfusion h
  rcases hm : scan_mdns_result env with e2 | m
  · simp only [scan_network, hs, hm] at h
    exact Except.noConfusion h
  simp only [scan_network, hs, hm, reduceCtorEq, or_self, reduceIte,
    Except.ok.injEq] at h
  subst h
  rcases List.mem_map.mp hd with ⟨d2, hd2, rfl⟩
  rcases List.mem_map.mp hd2 with ⟨x, _, rfl⟩
  exact ⟨rfl, rfl⟩

/-- C2 witness: the amended theorem applied to the concrete one-host
Level-1 scan. -/
theorem level1_devices_score_100_safe_witness :
    level1Device.security_score = 100 ∧
    level1Device.security_level = .Safe := by
  exact level1_devices_score_100_safe envOneHost
    (devicesOf (scan_network envOneHost .Level1)) rfl level1Device (by decide)

/-! ## C6 — error propagation -/

/-- C6 counterexample: with a succeeding sweeper but a failing mDNS
browse registration, the mDNS task panics through `.expect` and the scan
returns an `Internal` error — so the scan can fail even though the
Sweeper succeeded, and an mDNS failure is not always silent. -/
theorem scan_fails_on_mdns_panic :
    scan_network envMdnsPanic .Level1 =
      .error (.Internal "Failed to browse") ∧
    envMdnsPanic.sweeper = .ok ([] : List (String × String)) := by
  exact ⟨rfl, rfl⟩

/-- Auxiliary: the `mapM` worker loop over an always-`ok` step inside
the `Except` monad succeeds with the mapped list. -/
theorem mapM_loop_ok (l : List Device) (f : Device → Device)
    (acc : List Device) :
    List.mapM.loop (fun d => (Except.ok (f d) : Except ScanError Device))
      l acc = .ok (acc.reverse ++ l.map f) := by
  induction l generalizing acc with
  | nil => simp [List.mapM.loop, pure, Except.pure]
  | cons x xs ih =>
    simp [List.mapM.loop, Bind.bind, Except.bind, ih]

/-- Auxiliary: mapping a list through an always-`ok` step inside the
`Except` monad succeeds with the mapped list. -/
theorem mapM_ok_map (l : List Device) (f : Device → Device) :
    (l.mapM fun d => (Except.ok (f d) : Except ScanError Device)) =
      .ok (l.map f) := by
  simp [List.mapM, mapM_loop_ok]

/-- C6 amended: the scan returns an error exactly when the Sweeper fails
or the mDNS task panics (its browse registration failing); a sweeper
error is propagated verbatim; a failed port probe contributes no open
port (treated as closed); a failed SSDP discoverer contributes the empty
map. -/
theorem scan_error_characterisation :
    (∀ env level, isOkB (scan_network env level) =
      (sweeperOkB env.sweeper && mdnsOkB (scan_mdns_result env))) ∧
    (∀ env level e, env.sweeper = .error e →
      scan_network env level = .error e) ∧
    (∀ probe p, probe p = none →
      ∀ port ∈ scan_ports_list probe, port.number ≠ p) ∧
    (∀ env, env.ssdpOk = false → scan_ssdp_result env = []) := by
  refine ⟨fun env level => ?_, fun env level e he => ?_,
    fun probe p hp port hport => ?_, fun env h => ?_⟩
  · rcases hs : env.sweeper with e | discovered <;>
      rcases hm : scan_mdns_result env with e2 | m <;>
        simp only [scan_network, hs, hm, isOkB, sweeperOkB, mdnsOkB,
          Bool.false_and, Bool.true_and, Bool.and_false, Bool.and_true]
    rcases level with _ | _ | _ <;>
      simp [scan_ports, Except.map, mapM_loop_ok, isOkB]
  · simp only [scan_network, he]
  · simp only [scan_ports_list, List.mem_filterMap] at hport
    rcases hport with ⟨q, _, hqe⟩
    by_cases hqp : probeOpen probe q
    · simp only [hqp, if_true, Option.some.injEq] at hqe
      subst hqe
      intro hqp21
      simp only at hqp21
      rw [hqp21] at hqp
      simp [probeOpen, hp] at hqp
    · simp [hqp] at hqe
  · simp [scan_ssdp_result, h]

/-- C6 witness: the amended theorem applied to concrete environments —
the one-host environment, a failing sweeper, a probe that fails on port
23, and a failing SSDP discoverer. -/
theorem scan_error_characterisation_witness :
    isOkB (scan_network envOneHost .Level2) =
      (sweeperOkB envOneHost.sweeper && mdnsOkB (scan_mdns_result envOneHost)) ∧
    scan_network envSweepFail .Level1 =
      .error (.NetworkError "Could not find suitable network interface") ∧
    (proberPort 21).number ≠ 23 ∧
    scan_ssdp_result envSsdpFail = [] := by
  exact ⟨scan_error_characterisation.1 envOneHost .Level2,
    scan_error_characterisation.2.1 envSweepFail .Level1 _ rfl,
    scan_error_characterisation.2.2.1 probeAllOpenBut23 23 (by decide)
      (proberPort 21) (by decide),
    scan_error_characterisation.2.2.2 envSsdpFail rfl⟩

/-! ## C8 / C10 — NBNS response parser -/

theorem getElem?_eq_rdByte (l : List Nat) (i : Nat) (h : i < l.length) :
    l[i]? = some (rdByte l i) := by
  rw [rdByte, List.getElem?_eq_getElem h]
  rfl

theorem rdByte_zero_of_ge (l : List Nat) (i : Nat) (h : l.length ≤ i) :
    rdByte l i = 0 := by
  simp [rdByte, List.getElem?_eq_none h]

theorem nbns_claim_entry_succ (trim : List Nat → List Nat)
    (data : List Nat) (base i : Nat) :
    nbns_claim_entry trim data base (i + 1) =
      nbns_claim_entry trim data (base + 18) i := by
  have harith : base + 18 * (i + 1) = base + 18 + 18 * i := by ring
  simp only [nbns_claim_entry, harith]

theorem nbns_claim_entry_short (trim : List Nat → List Nat)
    (data : List Nat) (base i : Nat) (h : data.length < base + 18) :
    nbns_claim_entry trim data base i = none := by
  simp only [nbns_claim_entry]
  rw [if_neg (by omega)]

theorem scanEntries_overflow (data : List Nat) (count pos : Nat)
    (h : data.length < pos + 18) : scanEntries data pos count = none := by
  cases count with
  | zero => rfl
  | succ n =>
    simp only [scanEntries]
    rw [if_pos (by omega)]

theorem scanEntries_eq_claim (data : List Nat) : ∀ count pos,
    scanEntries data pos count =
      ((List.range count).filterMap
        (nbns_claim_entry trimEndWs data pos)).head? := by
  intro count
  induction count with
  | zero => intro pos; rfl
  | succ n ih =>
    intro pos
    have hcomp : nbns_claim_entry trimEndWs data pos ∘ Nat.succ =
        nbns_claim_entry trimEndWs data (pos + 18) :=
      funext fun i => nbns_claim_entry_succ trimEndWs data pos i
    rw [List.range_succ_eq_map]
    by_cases hlen : pos + 18 > data.length
    · rw [List.filterMap_cons_none
        (nbns_claim_entry_short trimEndWs data pos 0 (by omega)),
        List.filterMap_map, hcomp, ← ih (pos + 18),
        scanEntries_overflow data n (pos + 18) (by omega),
        scanEntries_overflow data (n + 1) pos (by omega)]
    · simp only [scanEntries, if_neg hlen]
      by_cases hhit : (rdByte data (pos + 16) * 256 +
          rdByte data (pos + 17)) &&& 0x8000 = 0 ∧
          trimEndWs ((data.drop pos).take 15) ≠ []
      · rw [if_pos hhit]
        have h0 : nbns_claim_entry trimEndWs data pos 0 =
            some (trimEndWs ((data.drop pos).take 15)) := by
          simp only [nbns_claim_entry, Nat.mul_zero, Nat.add_zero]
          rw [if_pos (by omega), if_pos hhit]
        rw [List.filterMap_cons_some h0, List.head?_cons]
      · rw [if_neg hhit]
        have h0 : nbns_claim_entry trimEndWs data pos 0 = none := by
          simp only [nbns_claim_entry, Nat.mul_zero, Nat.add_zero]
          rw [if_pos (by omega), if_neg hhit]
        rw [List.filterMap_cons_none h0, List.filterMap_map, hcomp]
        exact ih (pos + 18)

theorem answer_section_eq_claim_tail (data : List Nat) (pos1 : Nat) :
    nbns_answer_section data pos1 = nbns_claim_tail trimEndWs data pos1 := by
  simp only [nbns_answer_section, nbns_claim_tail]
  by_cases h : pos1 + 10 ≥ data.length
  · rw [if_pos h, rdByte_zero_of_ge data (pos1 + 10) (by omega)]
    rfl
  · rw [if_neg h]
    exact scanEntries_eq_claim data _ _

/-- C8 counterexample: on a 57-byte response whose unique name bytes are
`A`, `B`, TAB followed by space padding, the parser (Rust `trim_end`,
which strips all trailing whitespace) returns `AB`, while the claim's
"trailing spaces stripped" reading returns `AB\t` — the two differ. -/
theorem nbns_trim_divergence :
    parse_nbns_response nbnsTabResponse = some [65, 66] ∧
    nbns_claim_parse trimEndSpaces nbnsTabResponse = some [65, 66, 9] ∧
    parse_nbns_response nbnsTabResponse ≠
      nbns_claim_parse trimEndSpaces nbnsTabResponse := by
  exact ⟨by decide, by decide, by decide⟩

/-- C8 amended: the parser follows the claim's stepwise description
verbatim — under 57 bytes none; skip the 12-byte header; skip the answer
name (2-byte pointer when the first byte's high two bits are `11`, else
zero-terminated length-prefixed labels); skip 10 bytes; read one count
byte; scan that many 18-byte entries (15 name bytes, 1 suffix, 2
big-endian flag bytes) returning the first bit-15-clear entry whose name
is nonempty — with trailing *whitespace* (not only spaces) stripped from
the returned name. -/
theorem nbns_parse_matches_claim (data : List Nat) :
    parse_nbns_response data = nbns_claim_parse trimEndWs data := by
  simp only [parse_nbns_response, nbns_claim_parse]
  by_cases h57 : data.length < 57
  · simp only [if_pos h57]
  · simp only [if_neg h57, if_neg (show ¬ data.length ≤ 12 by omega)]
    by_cases hp : rdByte data 12 &&& 0xC0 = 0xC0
    · simp only [if_pos hp]
      exact answer_section_eq_claim_tail data 14
    · simp only [if_neg hp]
      exact answer_section_eq_claim_tail data (skipName data 12 + 1)

theorem skipNameCk_eq (data : List Nat) (pos : Nat) :
    skipNameCk data pos = .ok (skipName data pos) := by
  induction pos using skipName.induct data with
  | case1 x hx ih =>
    rw [skipNameCk, skipName]
    rw [dif_pos hx.1, dif_pos hx, getElem?_eq_rdByte data x hx.1]
    simp only [hx.2, ne_eq, not_false_eq_true, if_true]
    exact ih
  | case2 x hx =>
    rw [skipNameCk, skipName, dif_neg hx]
    by_cases hlt : x < data.length
    · rw [dif_pos hlt, getElem?_eq_rdByte data x hlt]
      have hz : rdByte data x = 0 := by
        by_contra hnz
        exact hx ⟨hlt, hnz⟩
      simp [hz]
    · rw [dif_neg hlt]

theorem scanEntriesCk_eq (data : List Nat) : ∀ count pos,
    scanEntriesCk data pos count = .ok (scanEntries data pos count) := by
  intro count
  induction count with
  | zero => intro pos; rfl
  | succ n ih =>
    intro pos
    simp only [scanEntriesCk, scanEntries]
    by_cases hlen : pos + 18 > data.length
    · simp only [if_pos hlen]
    · simp only [if_neg hlen,
        getElem?_eq_rdByte data (pos + 16) (by omega),
        getElem?_eq_rdByte data (pos + 17) (by omega)]
      by_cases hhit : (rdByte data (pos + 16) * 256 +
          rdByte data (pos + 17)) &&& 0x8000 = 0 ∧
          trimEndWs ((data.drop pos).take 15) ≠ []
      · rw [if_pos hhit, if_pos hhit]
      · rw [if_neg hhit, if_neg hhit]
        exact ih (pos + 18)

theorem nbns_answer_checked_eq (data : List Nat) (pos1 : Nat) :
    nbns_answer_section_checked data pos1 =
      .ok (nbns_answer_section data pos1) := by
  simp only [nbns_answer_section_checked, nbns_answer_section]
  by_cases h : pos1 + 10 ≥ data.length
  · simp only [if_pos h]
  · simp only [if_neg h, getElem?_eq_rdByte data (pos1 + 10) (by omega)]
    exact scanEntriesCk_eq data _ _

/-- C10: the parser is total on arbitrary input and every byte access is
in bounds: the bounds-checked mirror of the parser, in which any
out-of-bounds access aborts with an error, succeeds on every byte
sequence and returns exactly the parser's answer. -/
theorem nbns_parse_total_inbounds (data : List Nat) :
    parse_nbns_checked data = .ok (parse_nbns_response data) := by
  simp only [parse_nbns_checked, parse_nbns_response]
  by_cases h57 : data.length < 57
  · simp only [if_pos h57]
  · simp only [if_neg h57, if_neg (show ¬ data.length ≤ 12 by omega),
      getElem?_eq_rdByte data 12 (by omega)]
    by_cases hp : rdByte data 12 &&& 0xC0 = 0xC0
    · simp only [if_pos hp]
      exact nbns_answer_checked_eq data 14
    · simp only [if_neg hp, skipNameCk_eq data 12]
      exact nbns_answer_checked_eq data (skipName data 12 + 1)

/-! ## C3 — subnet enumeration -/

theorem land_mul_pow (x M h : Nat) :
    x &&& (2 ^ h * M) = 2 ^ h * ((x >>> h) &&& M) := by
  apply Nat.eq_of_testBit_eq
  intro j
  simp only [Nat.testBit_and, Nat.testBit_mul_pow_two, Nat.testBit_shiftRight]
  by_cases hj : h ≤ j
  · have hjj : h + (j - h) = j := by omega
    simp [hj, hjj, Bool.and_left_comm, Bool.and_comm, Bool.and_assoc]
  · simp [hj]

theorem pow32_split (h : Nat) (hh : h ≤ 32) :
    (2 : Nat) ^ 32 - 2 ^ h = 2 ^ h * (2 ^ (32 - h) - 1) := by
  have h1 : (2 : Nat) ^ h * 2 ^ (32 - h) = 2 ^ 32 := by
    rw [← pow_add]
    congr 1
    omega
  have h2 : (1 : Nat) ≤ 2 ^ (32 - h) := Nat.one_le_two_pow
  have h4 : (2 : Nat) ^ h * (2 ^ (32 - h) - 1) + 2 ^ h = 2 ^ 32 := by
    calc (2 : Nat) ^ h * (2 ^ (32 - h) - 1) + 2 ^ h
        = 2 ^ h * (2 ^ (32 - h) - 1 + 1) := by ring
      _ = 2 ^ h * 2 ^ (32 - h) := by rw [Nat.sub_add_cancel h2]
      _ = 2 ^ 32 := h1
  omega

theorem compl32_mask (h : Nat) (hh : h ≤ 32) :
    compl32 (2 ^ 32 - 2 ^ h) = 2 ^ h - 1 := by
  have hle : (2 : Nat) ^ h ≤ 2 ^ 32 := Nat.pow_le_pow_right (by norm_num) hh
  simp only [compl32]
  omega

theorem popcountAux_congr : ∀ f1 f2 n : Nat, n ≤ f1 → n ≤ f2 →
    popcountAux f1 n = popcountAux f2 n := by
  intro f1
  induction f1 with
  | zero =>
    intro f2 n h1 _
    have hn : n = 0 := by omega
    subst hn
    cases f2 <;> rfl
  | succ f ihf =>
    intro f2 n h1 h2
    cases f2 with
    | zero =>
      have hn : n = 0 := by omega
      subst hn
      rfl
    | succ g =>
      simp only [popcountAux]
      by_cases hn : n = 0
      · simp [hn]
      · rw [if_neg hn, if_neg hn]
        congr 1
        exact ihf g (n / 2) (by omega) (by omega)

theorem popcount_step (n : Nat) (hn : n ≠ 0) :
    popcount n = n % 2 + popcount (n / 2) := by
  obtain ⟨k, rfl⟩ : ∃ k, n = k + 1 := ⟨n - 1, by omega⟩
  show popcountAux (k + 1) (k + 1) = _
  simp only [popcountAux]
  rw [if_neg hn]
  congr 1
  exact popcountAux_congr k ((k + 1) / 2) ((k + 1) / 2) (by omega) (by omega)

theorem popcount_two_pow_sub_one : ∀ h : Nat, popcount (2 ^ h - 1) = h := by
  intro h
  induction h with
  | zero => rfl
  | succ k ih =>
    have hp : (2 : Nat) ^ (k + 1) = 2 * 2 ^ k := by
      rw [pow_succ]
      ring
    have hpos : (0 : Nat) < 2 ^ k := Nat.two_pow_pos k
    have hne : (2 : Nat) ^ (k + 1) - 1 ≠ 0 := by omega
    rw [popcount_step _ hne]
    have e1 : ((2 : Nat) ^ (k + 1) - 1) % 2 = 1 := by omega
    have e2 : ((2 : Nat) ^ (k + 1) - 1) / 2 = 2 ^ k - 1 := by omega
    rw [e1, e2, ih]
    omega

/-- C3 counterexample: on the `/30` network `192.168.1.0/255.255.255.252`
the enumeration produces 2 addresses, but `popcount(~mask) − 2 = 0`, so
the claimed count `popcount(~mask) − 2` is wrong (the correct count is
`2 ^ popcount(~mask) − 2`). -/
theorem subnet_count_formula_fails :
    (get_ips_in_subnet 3232235776 4294967292).length = 2 ∧
    popcount (compl32 4294967292) - 2 = 0 ∧
    (get_ips_in_subnet 3232235776 4294967292).length ≠
      popcount (compl32 4294967292) - 2 := by
  exact ⟨by decide, by decide, by decide⟩

/-- C3 amended: for every IPv4 address and prefix netmask with `h` host
bits (`mask = 2^32 − 2^h`), `get_ips_in_subnet` produces
`2 ^ popcount(~mask) − 2` addresses (not `popcount(~mask) − 2`); none of
them equals the network address `ip & mask` or the broadcast address
`network | ~mask`; each satisfies `(a & mask) = (ip & mask)`; and on the
`/30` network `192.168.1.0/255.255.255.252` the enumeration is exactly
`{192.168.1.1, 192.168.1.2}`. -/
theorem subnet_enumeration (ip h mask : Nat) (hh : h ≤ 32)
    (hm : mask = 2 ^ 32 - 2 ^ h) :
    (get_ips_in_subnet ip mask).length = 2 ^ popcount (compl32 mask) - 2 ∧
    (∀ a ∈ get_ips_in_subnet ip mask,
      a ≠ (ip &&& mask) ∧ a ≠ ((ip &&& mask) ||| compl32 mask) ∧
      a &&& mask = ip &&& mask) ∧
    get_ips_in_subnet 3232235776 4294967292 =
      [3232235777, 3232235778] := by
  subst hm
  have hpos : (0 : Nat) < 2 ^ h := Nat.two_pow_pos h
  have hM : (2 : Nat) ^ 32 - 2 ^ h = 2 ^ h * (2 ^ (32 - h) - 1) :=
    pow32_split h hh
  have hcompl : compl32 (2 ^ 32 - 2 ^ h) = 2 ^ h - 1 := compl32_mask h hh
  have hnet : ip &&& (2 ^ 32 - 2 ^ h) =
      2 ^ h * ((ip >>> h) &&& (2 ^ (32 - h) - 1)) := by
    rw [hM]
    exact land_mul_pow ip (2 ^ (32 - h) - 1) h
  have hbro : (ip &&& (2 ^ 32 - 2 ^ h)) ||| compl32 (2 ^ 32 - 2 ^ h) =
      2 ^ h * ((ip >>> h) &&& (2 ^ (32 - h) - 1)) + (2 ^ h - 1) := by
    rw [hcompl, hnet,
      ← Nat.mul_add_lt_is_or (show 2 ^ h - 1 < 2 ^ h by omega)]
  have hips : get_ips_in_subnet ip (2 ^ 32 - 2 ^ h) =
      List.range' (2 ^ h * ((ip >>> h) &&& (2 ^ (32 - h) - 1)) + 1)
        (2 ^ h - 2) := by
    simp only [get_ips_in_subnet]
    rw [hbro, hnet]
    congr 1
    omega
  refine ⟨?_, ?_, by decide⟩
  · rw [hips, List.length_range', hcompl, popcount_two_pow_sub_one h]
  · intro a ha
    rw [hips, List.mem_range'] at ha
    obtain ⟨i, hi, rfl⟩ := ha
    refine ⟨by rw [hnet]; omega, by rw [hbro]; omega, ?_⟩
    rw [hnet, hM, land_mul_pow]
    congr 1
    have hdiv : (2 ^ h * ((ip >>> h) &&& (2 ^ (32 - h) - 1)) + 1 + 1 * i)
        >>> h = (ip >>> h) &&& (2 ^ (32 - h) - 1) := by
      rw [Nat.shiftRight_eq_div_pow]
      have hlt : 1 + 1 * i < 2 ^ h := by omega
      rw [Nat.add_assoc, Nat.mul_add_div hpos]
      rw [Nat.div_eq_of_lt hlt]
      omega
    rw [hdiv, Nat.and_assoc, Nat.and_self]

/-- C3 witness: the amended enumeration theorem applied to the concrete
`/30` network `192.168.1.0/255.255.255.252` (`h = 2` host bits). -/
theorem subnet_enumeration_witness :
    (get_ips_in_subnet 3232235776 4294967292).length =
      2 ^ popcount (compl32 4294967292) - 2 ∧
    (∀ a ∈ get_ips_in_subnet 3232235776 4294967292,
      a ≠ (3232235776 &&& 4294967292) ∧
      a ≠ ((3232235776 &&& 4294967292) ||| compl32 4294967292) ∧
      a &&& 4294967292 = 3232235776 &&& 4294967292) ∧
    get_ips_in_subnet 3232235776 4294967292 =
      [3232235777, 3232235778] :=
  subnet_enumeration 3232235776 2 4294967292 (by omega) (by decide)

end LotDoctor
